import Mathlib

/-
  Verification development for the DMM 英会話 availability notifier
  (src/main.py).  The poll cycle `check_teacher_availability`, the prober
  `get_available_slots`, the notifier wrapper `send_push_notification` and
  the registration handler `index` are embedded shallowly: external
  collaborators (HTTP fetch, Pushbullet push, database commit) are
  parameters supplied as oracle functions, and the observable actions of a
  run (probes, notification attempts, per-row commits) are recorded in a
  trace.
-/

namespace DmmNotifier

/-- One row of the `UserData` table (src/main.py lines 52-59).  The `id`
primary key and `last_accessed` timestamp play no role in the polling
core and are omitted. -/
structure UserData where
  teacher_id : String
  teacher_name : String
  pushbullet_token : String
  last_available_count : Nat
  user_id : String
deriving Repr, DecidableEq

/-- Outcome of one HTTP GET as seen by the prober: either a
`requests.exceptions.RequestException`, or a final response with a status
code, a final URL (after redirects) and the list of text nodes of the
parsed page body. -/
inductive FetchResult where
  | exn : FetchResult
  | resp (status : Nat) (url : String) (body : List String) : FetchResult
deriving Repr, DecidableEq

/-- The generic landing page a dead teacher URL redirects to. -/
def landingURL : String := "https://eikaiwa.dmm.com/"

/-- URL of a teacher page, as built by the source at several call sites. -/
def teacherURL (teacher_id : String) : String :=
  "https://eikaiwa.dmm.com/teacher/index/" ++ teacher_id ++ "/"

/-- `get_available_slots` (src/main.py lines 246-258): fetch the teacher
page; a request exception, a non-200 status, or a redirect to the landing
page yields `none`; otherwise the number of text nodes equal to 予約可. -/
def get_available_slots (fetch : String → FetchResult) (teacher_id : String) :
    Option Nat :=
  match fetch (teacherURL teacher_id) with
  | FetchResult.exn => none
  | FetchResult.resp status url body =>
      if status ≠ 200 ∨ url = landingURL then none
      else some (body.filter (fun s => s = "予約可")).length

/-- Observable actions of a poll run, in order of occurrence. -/
inductive Event where
  | probe (teacher_id : String)
  | notify (token title url : String)
  | commit (teacher_id : String) (count : Nat)
deriving Repr, DecidableEq

/-- Whether an event is a notification attempt. -/
def Event.isNotify : Event → Bool
  | Event.notify _ _ _ => true
  | _ => false

/-- `send_push_notification` (src/main.py lines 260-269): builds the push
title from the display name and the link from the teacher id, attempts the
push, and catches any exception from the Pushbullet client, turning it
into a log line.  It always returns the attempted notification event. -/
def send_push_notification (push : String → String → Except String Unit)
    (user_token teacher_id name : String) : Event × List String :=
  let url := teacherURL teacher_id
  match push user_token url with
  | Except.ok _ => (Event.notify user_token (name ++ " レッスン開講通知") url, [])
  | Except.error e =>
      (Event.notify user_token (name ++ " レッスン開講通知") url,
        ["⚠ Pushbullet通知の送信に失敗しました: " ++ e])

/-- External collaborators of one poll run.  `fetch` answers HTTP GETs,
`push` answers Pushbullet pushes, `queryFail` is `some e` when
`UserData.query.all()` raises `e`, and `commitFail i` is `some e` when the
`db.session.commit()` for the `i`-th subscription raises `e` (the pending
row change is then rolled back and the run aborts to the outer handler). -/
structure Oracles where
  fetch : String → FetchResult
  push : String → String → Except String Unit
  queryFail : Option String
  commitFail : Nat → Option String

/-- Result of the per-subscription for-loop (src/main.py lines 284-295):
the rows as left in the store, the local failed-probe counter, the event
trace, the log lines, and `some e` when a commit raised `e` and the loop
aborted early. -/
structure LoopResult where
  rows : List UserData
  errs : Nat
  trace : List Event
  log : List String
  aborted : Option String
deriving Repr, DecidableEq

/-- The for-loop of `check_teacher_availability` over the remaining
subscriptions, `i` being the position of the first of them in the run.
A failed probe counts the row as failed and leaves it unmodified; a
successful probe with count above the stored one attempts a notification;
in either success case the new count is committed before the next row is
probed.  A raising commit rolls back the pending row and stops the loop. -/
def runLoop (ors : Oracles) : Nat → List UserData → LoopResult
  | _, [] => ⟨[], 0, [], [], none⟩
  | i, u :: rest =>
    match get_available_slots ors.fetch u.teacher_id with
    | none =>
        let r := runLoop ors (i + 1) rest
        ⟨u :: r.rows, r.errs + 1, Event.probe u.teacher_id :: r.trace, r.log,
          r.aborted⟩
    | some c =>
        let sent : List Event × List String :=
          if u.last_available_count < c then
            let s := send_push_notification ors.push u.pushbullet_token
              u.teacher_id u.teacher_name
            ([s.1], s.2)
          else ([], [])
        match ors.commitFail i with
        | some e =>
            ⟨u :: rest, 0, Event.probe u.teacher_id :: sent.1, sent.2, some e⟩
        | none =>
            let r := runLoop ors (i + 1) rest
            ⟨{ u with last_available_count := c } :: r.rows, r.errs,
              Event.probe u.teacher_id :: sent.1 ++
                Event.commit u.teacher_id c :: r.trace,
              sent.2 ++ r.log, r.aborted⟩

/-- `MAX_ERRORS` (src/main.py line 272). -/
def MAX_ERRORS : Nat := 5

/-- Process-wide state read and written by a poll run: the subscription
store and the global `consecutive_errors` counter. -/
structure GlobalState where
  store : List UserData
  consecutive_errors : Nat
deriving Repr, DecidableEq

/-- What one poll run leaves behind: the store, the streak counter, the
event trace and the log. -/
structure RunOutcome where
  store : List UserData
  consecutive_errors : Nat
  trace : List Event
  log : List String
deriving Repr, DecidableEq

/-- The body of the `try:` block of `check_teacher_availability`
(src/main.py lines 281-304).  An error value carries the message together
with the rows, trace and log at the moment it was raised. -/
def checkBody (ors : Oracles) (st : GlobalState) :
    Except (String × List UserData × List Event × List String) RunOutcome :=
  match ors.queryFail with
  | some e => Except.error (e, st.store, [], [])
  | none =>
    let r := runLoop ors 0 st.store
    match r.aborted with
    | some e => Except.error (e, r.rows, r.trace, r.log)
    | none =>
      if r.errs = st.store.length then
        let s := st.consecutive_errors + 1
        Except.ok ⟨r.rows, s, r.trace,
          r.log ++ ["⚠ DMMに全ユーザーでアクセス失敗（" ++ toString s ++ "回連続）"] ++
            (if MAX_ERRORS ≤ s then ["🚨 一時的にチェック処理をスキップします"] else [])⟩
      else
        Except.ok ⟨r.rows, 0, r.trace, r.log⟩

/-- `check_teacher_availability` (src/main.py lines 274-307): run the body
and catch any exception at the run boundary, logging it; an aborted run
keeps its partial commits and leaves `consecutive_errors` untouched. -/
def check_teacher_availability (ors : Oracles) (st : GlobalState) : RunOutcome :=
  match checkBody ors st with
  | Except.ok out => out
  | Except.error (e, rows, tr, lg) =>
      ⟨rows, st.consecutive_errors, tr, lg ++ ["⚠ 通知チェックでエラー発生: " ++ e]⟩

/-- Outcome of the HTTP GET made by `get_teacher_name`: an exception, or a
final URL together with the text of the first `h1` element of the page
(when one exists). -/
inductive NameFetchResult where
  | exn : NameFetchResult
  | resp (url : String) (h1 : Option String) : NameFetchResult
deriving Repr, DecidableEq

/-- `get_teacher_name` (src/main.py lines 231-244): fetch the teacher
page; an exception or a redirect to the landing page yields `none`,
otherwise the stripped text of the first `h1` element. -/
def get_teacher_name (fetchName : String → NameFetchResult)
    (teacher_id : String) : Option String :=
  match fetchName (teacherURL teacher_id) with
  | NameFetchResult.exn => none
  | NameFetchResult.resp url h1 =>
      if url = landingURL then none else h1.map String.trim

/-- The `str.isdigit` test of Python restricted to ASCII digits: true on
a non-empty string of digits. -/
def pyIsdigit (s : String) : Bool :=
  s ≠ "" && s.all Char.isDigit

/-- Number of subscriptions a given owner holds in the store, as computed
by `UserData.query.filter_by(user_id=user_id).count()`. -/
def countFor (uid : String) (store : List UserData) : Nat :=
  (store.filter (fun r => r.user_id = uid)).length

/-- Outcome of a POST to the `index` route. `crashed` stands for the
`AttributeError` raised by `teacher_id.isdigit()` when the form field is
absent. -/
inductive IndexPostResult where
  | capExceeded
  | crashed
  | notDigits
  | missingField
  | duplicate
  | lookupFailed
  | registered (name : String)
deriving Repr, DecidableEq

/-- The POST branch of `index` (src/main.py lines 147-185): reject once
the owner holds 10 subscriptions, validate the form fields, reject
duplicates and failed name lookups, and otherwise append a new row with
`last_available_count = 0`. -/
def indexPost (fetchName : String → NameFetchResult) (store : List UserData)
    (uid : String) (teacher_id pushbullet_token : Option String) :
    List UserData × IndexPostResult :=
  let total_teachers := countFor uid store
  if 10 ≤ total_teachers then (store, IndexPostResult.capExceeded)
  else
    match teacher_id with
    | none => (store, IndexPostResult.crashed)
    | some tid =>
      if ¬ pyIsdigit tid then (store, IndexPostResult.notDigits)
      else
        match pushbullet_token with
        | none => (store, IndexPostResult.missingField)
        | some tok =>
          if tok = "" then (store, IndexPostResult.missingField)
          else if store.any (fun r => r.teacher_id = tid && r.user_id = uid) then
            (store, IndexPostResult.duplicate)
          else
            match get_teacher_name fetchName tid with
            | none => (store, IndexPostResult.lookupFailed)
            | some name =>
                (store ++ [⟨tid, name, tok, 0, uid⟩],
                  IndexPostResult.registered name)

/-- How one poll run leaves one row when no commit raises: a failed probe
leaves it unchanged, a successful probe overwrites its stored count. -/
def applyUpdate (ors : Oracles) (u : UserData) : UserData :=
  match get_available_slots ors.fetch u.teacher_id with
  | none => u
  | some c => { u with last_available_count := c }

/-- The block of trace events one row contributes when no commit raises:
its probe; on success, the notification attempt when the count rose,
then its commit. -/
def itemTrace (ors : Oracles) (u : UserData) : List Event :=
  match get_available_slots ors.fetch u.teacher_id with
  | none => [Event.probe u.teacher_id]
  | some c =>
      Event.probe u.teacher_id ::
        (if u.last_available_count < c then
          [(send_push_notification ors.push u.pushbullet_token u.teacher_id
              u.teacher_name).1]
        else []) ++ [Event.commit u.teacher_id c]

/-- The log lines one row contributes when no commit raises. -/
def itemLog (ors : Oracles) (u : UserData) : List String :=
  match get_available_slots ors.fetch u.teacher_id with
  | none => []
  | some c =>
      if u.last_available_count < c then
        (send_push_notification ors.push u.pushbullet_token u.teacher_id
          u.teacher_name).2
      else []

/-- Whether a row's probe failed in this run. -/
def probeFailed (ors : Oracles) (u : UserData) : Bool :=
  (get_available_slots ors.fetch u.teacher_id).isNone

/-- When no commit raises, the loop maps `applyUpdate` over the rows,
counts the failed probes, concatenates the per-row trace blocks and log
lines, and does not abort. -/
theorem runLoop_good (ors : Oracles) (hc : ∀ i, ors.commitFail i = none) :
    ∀ (i : Nat) (us : List UserData),
      runLoop ors i us =
        ⟨us.map (applyUpdate ors), us.countP (probeFailed ors),
          us.flatMap (itemTrace ors), us.flatMap (itemLog ors), none⟩ := by
  intro i us
  induction us generalizing i with
  | nil => rfl
  | cons u rest ih =>
    rw [runLoop]
    rcases h : get_available_slots ors.fetch u.teacher_id with _ | c
    · simp [ih (i + 1), List.countP_cons, probeFailed, itemTrace, itemLog,
        applyUpdate, h]
    · rw [hc i]
      simp only [ih (i + 1)]
      by_cases hlt : u.last_available_count < c
      · simp [List.countP_cons, probeFailed, itemTrace, itemLog, applyUpdate,
          h, hlt]
      · simp [List.countP_cons, probeFailed, itemTrace, itemLog, applyUpdate,
          h, hlt]

/-- Reliable database oracles: the query and every commit succeed. -/
def Oracles.dbOk (ors : Oracles) : Prop :=
  ors.queryFail = none ∧ ∀ i, ors.commitFail i = none

/-- With reliable database oracles a run's final store is obtained by
applying `applyUpdate` to every row. -/
theorem check_store_good (ors : Oracles) (st : GlobalState)
    (h : ors.dbOk) :
    (check_teacher_availability ors st).store = st.store.map (applyUpdate ors) := by
  obtain ⟨hq, hc⟩ := h
  unfold check_teacher_availability checkBody
  rw [hq, runLoop_good ors hc]
  by_cases he : st.store.countP (probeFailed ors) = st.store.length <;>
    simp [he]

/-- With reliable database oracles a run's trace is the concatenation of
the per-row blocks, in store order. -/
theorem check_trace_good (ors : Oracles) (st : GlobalState)
    (h : ors.dbOk) :
    (check_teacher_availability ors st).trace = st.store.flatMap (itemTrace ors) := by
  obtain ⟨hq, hc⟩ := h
  unfold check_teacher_availability checkBody
  rw [hq, runLoop_good ors hc]
  by_cases he : st.store.countP (probeFailed ors) = st.store.length <;>
    simp [he]

/-- With reliable database oracles the streak counter after a run is:
incremented when the failed-probe count equals the store size, else 0. -/
theorem check_streak_good (ors : Oracles) (st : GlobalState)
    (h : ors.dbOk) :
    (check_teacher_availability ors st).consecutive_errors =
      if st.store.countP (probeFailed ors) = st.store.length then
        st.consecutive_errors + 1
      else 0 := by
  obtain ⟨hq, hc⟩ := h
  unfold check_teacher_availability checkBody
  rw [hq, runLoop_good ors hc]
  by_cases he : st.store.countP (probeFailed ors) = st.store.length <;>
    simp [he]

/-- The notification attempt event is the same whether the push succeeds
or raises: the title comes from the display name, the link from the
teacher id. -/
theorem send_push_notification_fst (push : String → String → Except String Unit)
    (user_token teacher_id name : String) :
    (send_push_notification push user_token teacher_id name).1 =
      Event.notify user_token (name ++ " レッスン開講通知") (teacherURL teacher_id) := by
  rcases h : push user_token (teacherURL teacher_id) with _ | e <;>
    simp [send_push_notification, h]

/-- Appending one row raises an owner's count by one exactly when the row
belongs to them. -/
theorem countFor_append_single (owner : String) (store : List UserData)
    (r : UserData) :
    countFor owner (store ++ [r]) =
      countFor owner store + (if r.user_id = owner then 1 else 0) := by
  simp only [countFor, List.filter_append, List.length_append]
  by_cases hr : r.user_id = owner <;> simp [hr]

/-- A POST to `index` either leaves the store unchanged or, only when the
owner held fewer than 10 subscriptions, appends a single row owned by the
requesting user. -/
theorem indexPost_store_shape (fetchName : String → NameFetchResult)
    (store : List UserData) (uid : String)
    (teacher_id pushbullet_token : Option String) :
    (indexPost fetchName store uid teacher_id pushbullet_token).1 = store
    ∨ (countFor uid store < 10 ∧ ∃ t n p,
        (indexPost fetchName store uid teacher_id pushbullet_token).1 =
          store ++ [⟨t, n, p, 0, uid⟩]) := by
  unfold indexPost
  by_cases h10 : 10 ≤ countFor uid store
  · left; simp [h10]
  · rcases teacher_id with _ | t
    · left; simp [h10]
    · by_cases hd : pyIsdigit t
      · rcases pushbullet_token with _ | p
        · left; simp [h10, hd]
        · by_cases hp : p = ""
          · left; simp [h10, hd, hp]
          · by_cases hdup : store.any
                (fun r => r.teacher_id = t && r.user_id = uid)
            · left; simp [h10, hd, hp, hdup]
            · rcases hname : get_teacher_name fetchName t with _ | nm
              · left; simp [h10, hd, hp, hdup, hname]
              · right
                exact ⟨Nat.lt_of_not_le h10, t, nm, p, by
                  simp [h10, hd, hp, hdup, hname]⟩
      · left; simp [h10, hd]

/- Concrete fixtures used by the witnesses below. -/

/-- A sample subscription row. -/
def demoUser : UserData := ⟨"12345", "Alice", "tok", 0, "owner1"⟩

/-- A fetch oracle whose teacher pages all show `n` open slots. -/
def fetchSlots (n : Nat) : String → FetchResult :=
  fun _ => FetchResult.resp 200 "teacherpage" (List.replicate n "予約可")

/-- Oracles: every probe sees `n` slots, pushes succeed, database fine. -/
def orsGood (n : Nat) : Oracles :=
  ⟨fetchSlots n, fun _ _ => Except.ok (), none, fun _ => none⟩

/-- Oracles: every probe raises a request exception, database fine. -/
def orsFail : Oracles :=
  ⟨fun _ => FetchResult.exn, fun _ _ => Except.ok (), none, fun _ => none⟩

/-- Oracles: probes see `n` slots but every push raises. -/
def orsPushBoom (n : Nat) : Oracles :=
  ⟨fetchSlots n, fun _ _ => Except.error "boom", none, fun _ => none⟩

/-- Oracles: reading the subscription table raises. -/
def orsQueryBoom : Oracles :=
  ⟨fun _ => FetchResult.exn, fun _ _ => Except.ok (), some "down", fun _ => none⟩

/-- Claim C1: in a run with a reliable database, a subscription whose probe
succeeds with a count strictly above its stored one has its stored count
overwritten with the probed count, the run trace is exactly the
concatenation of the per-subscription blocks, and that subscription's
block holds exactly one notification attempt, whose title is built from
the display name and whose link from the resource identifier. -/
theorem claim1_notify_on_increase (ors : Oracles) (st : GlobalState)
    (h : ors.dbOk) (i : Nat) (u : UserData) (c : Nat)
    (hi : st.store[i]? = some u)
    (hc : get_available_slots ors.fetch u.teacher_id = some c)
    (hgt : u.last_available_count < c) :
    (check_teacher_availability ors st).store[i]? =
        some { u with last_available_count := c }
      ∧ (check_teacher_availability ors st).trace =
          st.store.flatMap (itemTrace ors)
      ∧ (itemTrace ors u).filter Event.isNotify =
          [Event.notify u.pushbullet_token (u.teacher_name ++ " レッスン開講通知")
            (teacherURL u.teacher_id)] := by
  refine ⟨?_, check_trace_good ors st h, ?_⟩
  · rw [check_store_good ors st h, List.getElem?_map, hi]
    simp [applyUpdate, hc]
  · simp [itemTrace, hc, hgt, send_push_notification_fst, Event.isNotify]

/-- Witness for C1: one subscription stored at count 0, probe sees 3. -/
theorem claim1_witness :
    (check_teacher_availability (orsGood 3) ⟨[demoUser], 0⟩).store[0]? =
        some { demoUser with last_available_count := 3 }
      ∧ (check_teacher_availability (orsGood 3) ⟨[demoUser], 0⟩).trace =
          [demoUser].flatMap (itemTrace (orsGood 3))
      ∧ (itemTrace (orsGood 3) demoUser).filter Event.isNotify =
          [Event.notify demoUser.pushbullet_token
            (demoUser.teacher_name ++ " レッスン開講通知")
            (teacherURL demoUser.teacher_id)] :=
  claim1_notify_on_increase (orsGood 3) ⟨[demoUser], 0⟩ ⟨rfl, fun _ => rfl⟩
    0 demoUser 3 rfl rfl (by decide)

/-- Claim C3: in a run with a reliable database, a subscription whose probe
succeeds with a count at most its stored one contributes no notification
attempt to its block, yet its stored count is still overwritten with the
probed count. -/
theorem claim3_no_notify_on_no_increase (ors : Oracles) (st : GlobalState)
    (h : ors.dbOk) (i : Nat) (u : UserData) (c : Nat)
    (hi : st.store[i]? = some u)
    (hc : get_available_slots ors.fetch u.teacher_id = some c)
    (hle : c ≤ u.last_available_count) :
    (check_teacher_availability ors st).store[i]? =
        some { u with last_available_count := c }
      ∧ (check_teacher_availability ors st).trace =
          st.store.flatMap (itemTrace ors)
      ∧ (itemTrace ors u).filter Event.isNotify = [] := by
  refine ⟨?_, check_trace_good ors st h, ?_⟩
  · rw [check_store_good ors st h, List.getElem?_map, hi]
    simp [applyUpdate, hc]
  · simp [itemTrace, hc, Nat.not_lt.mpr hle, Event.isNotify]

/-- Witness for C3: one subscription stored at count 5, probe sees 5. -/
theorem claim3_witness :
    (check_teacher_availability (orsGood 5)
        ⟨[{ demoUser with last_available_count := 5 }], 0⟩).store[0]? =
        some { demoUser with last_available_count := 5 }
      ∧ (check_teacher_availability (orsGood 5)
            ⟨[{ demoUser with last_available_count := 5 }], 0⟩).trace =
          [{ demoUser with last_available_count := 5 }].flatMap
            (itemTrace (orsGood 5))
      ∧ (itemTrace (orsGood 5)
            { demoUser with last_available_count := 5 }).filter Event.isNotify =
          [] :=
  claim3_no_notify_on_no_increase (orsGood 5)
    ⟨[{ demoUser with last_available_count := 5 }], 0⟩ ⟨rfl, fun _ => rfl⟩
    0 { demoUser with last_available_count := 5 } 5 rfl rfl (by decide)

/-- Claim C4: in a run with a reliable database, a subscription whose probe
fails keeps its stored count, contributes only its probe to the trace (no
notification, no commit), and every subscription of the run is still
processed by the per-row update map. -/
theorem claim4_probe_failure_frame (ors : Oracles) (st : GlobalState)
    (h : ors.dbOk) (i : Nat) (u : UserData)
    (hi : st.store[i]? = some u)
    (hfail : get_available_slots ors.fetch u.teacher_id = none) :
    (check_teacher_availability ors st).store[i]? = some u
      ∧ (∀ (j : Nat) (v : UserData), st.store[j]? = some v →
          (check_teacher_availability ors st).store[j]? =
            some (applyUpdate ors v))
      ∧ itemTrace ors u = [Event.probe u.teacher_id]
      ∧ (check_teacher_availability ors st).trace =
          st.store.flatMap (itemTrace ors) := by
  have hstore := check_store_good ors st h
  refine ⟨?_, ?_, ?_, check_trace_good ors st h⟩
  · rw [hstore, List.getElem?_map, hi]
    simp [applyUpdate, hfail]
  · intro j v hj
    rw [hstore, List.getElem?_map, hj]
    rfl
  · simp [itemTrace, hfail]

/-- Witness for C4: two subscriptions; the probe fails for both, counts
survive untouched. -/
theorem claim4_witness :
    (check_teacher_availability orsFail
        ⟨[demoUser, { demoUser with last_available_count := 7 }], 0⟩).store[0]? =
        some demoUser
      ∧ (∀ (j : Nat) (v : UserData),
          ([demoUser, { demoUser with last_available_count := 7 }] :
              List UserData)[j]? = some v →
          (check_teacher_availability orsFail
              ⟨[demoUser, { demoUser with last_available_count := 7 }],
                0⟩).store[j]? = some (applyUpdate orsFail v))
      ∧ itemTrace orsFail demoUser = [Event.probe demoUser.teacher_id]
      ∧ (check_teacher_availability orsFail
            ⟨[demoUser, { demoUser with last_available_count := 7 }], 0⟩).trace =
          [demoUser, { demoUser with last_available_count := 7 }].flatMap
            (itemTrace orsFail) :=
  claim4_probe_failure_frame orsFail
    ⟨[demoUser, { demoUser with last_available_count := 7 }], 0⟩
    ⟨rfl, fun _ => rfl⟩ 0 demoUser rfl rfl

/-- The statement of claim C2 at one input, word for word: increment the
streak when every probe failed and the store was non-empty; otherwise —
which includes the empty store — reset it to 0. -/
def claim2Statement (ors : Oracles) (st : GlobalState) : Prop :=
  ((∀ u ∈ st.store, get_available_slots ors.fetch u.teacher_id = none) ∧
      st.store ≠ [] →
    (check_teacher_availability ors st).consecutive_errors =
      st.consecutive_errors + 1)
  ∧ (¬((∀ u ∈ st.store, get_available_slots ors.fetch u.teacher_id = none) ∧
        st.store ≠ []) →
    (check_teacher_availability ors st).consecutive_errors = 0)

/-- Counterexample to C2: with an empty subscription store the code still
takes the `error_count_this_run == len(users)` branch (`0 == 0`) and
increments the streak to 1, while the claim requires a reset to 0 since
the set was empty. -/
theorem claim2_counterexample :
    ¬ claim2Statement (orsGood 0) ⟨[], 0⟩ := by
  intro h
  have h0 := h.2 (by simp)
  revert h0
  decide

/-- Claim C2 as amended: with a reliable database, the streak increments
by exactly 1 whenever every subscription's probe failed — vacuously so for
an empty store — and resets to 0 as soon as at least one probe succeeds. -/
theorem claim2_amended_streak (ors : Oracles) (st : GlobalState)
    (h : ors.dbOk) :
    ((∀ u ∈ st.store, get_available_slots ors.fetch u.teacher_id = none) →
      (check_teacher_availability ors st).consecutive_errors =
        st.consecutive_errors + 1)
    ∧ ((∃ u ∈ st.store, get_available_slots ors.fetch u.teacher_id ≠ none) →
      (check_teacher_availability ors st).consecutive_errors = 0) := by
  have hstreak := check_streak_good ors st h
  constructor
  · intro hall
    have hcnt : st.store.countP (probeFailed ors) = st.store.length :=
      List.countP_eq_length.mpr fun u hu => by
        simp [probeFailed, hall u hu]
    rw [hstreak, if_pos hcnt]
  · rintro ⟨u, hu, hne⟩
    have hcnt : st.store.countP (probeFailed ors) ≠ st.store.length := by
      intro hcnt
      exact hne (Option.isNone_iff_eq_none.mp
        (List.countP_eq_length.mp hcnt u hu))
    rw [hstreak, if_neg hcnt]

/-- Witness for the amended C2: two failing probes push the streak from 2
to 3; a succeeding probe resets a streak of 4 to 0. -/
theorem claim2_amended_witness :
    (check_teacher_availability orsFail
        ⟨[demoUser, { demoUser with last_available_count := 7 }],
          2⟩).consecutive_errors = 3
    ∧ (check_teacher_availability (orsGood 1)
        ⟨[demoUser], 4⟩).consecutive_errors = 0 :=
  ⟨(claim2_amended_streak orsFail
      ⟨[demoUser, { demoUser with last_available_count := 7 }], 2⟩
      ⟨rfl, fun _ => rfl⟩).1 (by decide),
   (claim2_amended_streak (orsGood 1) ⟨[demoUser], 4⟩
      ⟨rfl, fun _ => rfl⟩).2 ⟨demoUser, by simp, by decide⟩⟩

/-- Claim C5: in a run with a reliable database, when a subscription's
count increased and the push raises, `send_push_notification` still
returns normally (the failure becomes a log line, the attempt event is
unchanged), the stored count is still updated, the run trace is still the
full concatenation of blocks, and the final store and streak do not depend
on the push oracle at all. -/
theorem claim5_notifier_failure_harmless (ors : Oracles) (st : GlobalState)
    (h : ors.dbOk) (i : Nat) (u : UserData) (c : Nat) (e : String)
    (hi : st.store[i]? = some u)
    (hc : get_available_slots ors.fetch u.teacher_id = some c)
    (hgt : u.last_available_count < c)
    (hfail : ors.push u.pushbullet_token (teacherURL u.teacher_id) =
      Except.error e) :
    send_push_notification ors.push u.pushbullet_token u.teacher_id
        u.teacher_name =
      (Event.notify u.pushbullet_token (u.teacher_name ++ " レッスン開講通知")
        (teacherURL u.teacher_id),
       ["⚠ Pushbullet通知の送信に失敗しました: " ++ e])
    ∧ (check_teacher_availability ors st).store[i]? =
        some { u with last_available_count := c }
    ∧ (check_teacher_availability ors st).trace =
        st.store.flatMap (itemTrace ors)
    ∧ ∀ push2 : String → String → Except String Unit,
        (check_teacher_availability { ors with push := push2 } st).store =
            (check_teacher_availability ors st).store
        ∧ (check_teacher_availability
              { ors with push := push2 } st).consecutive_errors =
            (check_teacher_availability ors st).consecutive_errors := by
  refine ⟨?_, ?_, check_trace_good ors st h, ?_⟩
  · simp [send_push_notification, hfail]
  · rw [check_store_good ors st h, List.getElem?_map, hi]
    simp [applyUpdate, hc]
  · intro push2
    have h2 : Oracles.dbOk { ors with push := push2 } := ⟨h.1, h.2⟩
    have hfn : applyUpdate { ors with push := push2 } = applyUpdate ors := rfl
    have hpf : probeFailed { ors with push := push2 } = probeFailed ors := rfl
    constructor
    · rw [check_store_good _ _ h2, check_store_good ors st h, hfn]
    · rw [check_streak_good _ _ h2, check_streak_good ors st h, hpf]

/-- Witness for C5: the push raises for a subscription whose count rose
from 0 to 2; the stored count still becomes 2. -/
theorem claim5_witness :
    send_push_notification (orsPushBoom 2).push demoUser.pushbullet_token
        demoUser.teacher_id demoUser.teacher_name =
      (Event.notify demoUser.pushbullet_token
        (demoUser.teacher_name ++ " レッスン開講通知")
        (teacherURL demoUser.teacher_id),
       ["⚠ Pushbullet通知の送信に失敗しました: " ++ "boom"])
    ∧ (check_teacher_availability (orsPushBoom 2) ⟨[demoUser], 0⟩).store[0]? =
        some { demoUser with last_available_count := 2 }
    ∧ (check_teacher_availability (orsPushBoom 2) ⟨[demoUser], 0⟩).trace =
        [demoUser].flatMap (itemTrace (orsPushBoom 2))
    ∧ ∀ push2 : String → String → Except String Unit,
        (check_teacher_availability
            { orsPushBoom 2 with push := push2 } ⟨[demoUser], 0⟩).store =
          (check_teacher_availability (orsPushBoom 2) ⟨[demoUser], 0⟩).store
        ∧ (check_teacher_availability
              { orsPushBoom 2 with push := push2 }
              ⟨[demoUser], 0⟩).consecutive_errors =
            (check_teacher_availability (orsPushBoom 2)
              ⟨[demoUser], 0⟩).consecutive_errors :=
  claim5_notifier_failure_harmless (orsPushBoom 2) ⟨[demoUser], 0⟩
    ⟨rfl, fun _ => rfl⟩ 0 demoUser 2 "boom" rfl rfl (by decide) rfl

/-- Claim C6: in a run with a reliable database whose outgoing streak has
reached `MAX_ERRORS`, the run still updates every row and emits the full
trace, and any later run with a reliable database — started from exactly
the state this run left — again updates every row and emits its full
trace: the threshold disables nothing. -/
theorem claim6_threshold_does_not_disable (ors : Oracles) (st : GlobalState)
    (h : ors.dbOk)
    (hth : MAX_ERRORS ≤ (check_teacher_availability ors st).consecutive_errors) :
    (check_teacher_availability ors st).store = st.store.map (applyUpdate ors)
    ∧ (check_teacher_availability ors st).trace =
        st.store.flatMap (itemTrace ors)
    ∧ ∀ ors2 : Oracles, ors2.dbOk →
        (check_teacher_availability ors2
            ⟨(check_teacher_availability ors st).store,
              (check_teacher_availability ors st).consecutive_errors⟩).store =
          (check_teacher_availability ors st).store.map (applyUpdate ors2)
        ∧ (check_teacher_availability ors2
              ⟨(check_teacher_availability ors st).store,
                (check_teacher_availability ors st).consecutive_errors⟩).trace =
            (check_teacher_availability ors st).store.flatMap (itemTrace ors2) := by
  exact ⟨check_store_good ors st h, check_trace_good ors st h,
    fun ors2 h2 => ⟨check_store_good ors2 _ h2, check_trace_good ors2 _ h2⟩⟩

/-- Witness for C6: a fifth consecutive full-failure run reaches the
threshold; the next run, with the site back up, still processes the row. -/
theorem claim6_witness :
    MAX_ERRORS ≤
        (check_teacher_availability orsFail ⟨[demoUser], 4⟩).consecutive_errors
    ∧ (check_teacher_availability orsFail ⟨[demoUser], 4⟩).store =
        [demoUser].map (applyUpdate orsFail)
    ∧ (check_teacher_availability (orsGood 3)
          ⟨(check_teacher_availability orsFail ⟨[demoUser], 4⟩).store,
            (check_teacher_availability orsFail
              ⟨[demoUser], 4⟩).consecutive_errors⟩).store =
        (check_teacher_availability orsFail ⟨[demoUser], 4⟩).store.map
          (applyUpdate (orsGood 3)) :=
  ⟨by decide,
   (claim6_threshold_does_not_disable orsFail ⟨[demoUser], 4⟩
      ⟨rfl, fun _ => rfl⟩ (by decide)).1,
   ((claim6_threshold_does_not_disable orsFail ⟨[demoUser], 4⟩
      ⟨rfl, fun _ => rfl⟩ (by decide)).2.2 (orsGood 3) ⟨rfl, fun _ => rfl⟩).1⟩

/-- Claim C7: whatever the collaborators do, every exception of the run
body is caught at the run boundary and turned into a logged normal
outcome that keeps the partial commits and the old streak, and a later
run with a reliable database — started from whatever state the failing
run left — still emits the full per-subscription trace. -/
theorem claim7_run_boundary_catch (ors : Oracles) (st : GlobalState) :
    (∀ (e : String) (rows : List UserData) (tr : List Event)
        (lg : List String),
      checkBody ors st = Except.error (e, rows, tr, lg) →
      check_teacher_availability ors st =
        ⟨rows, st.consecutive_errors,
          tr, lg ++ ["⚠ 通知チェックでエラー発生: " ++ e]⟩)
    ∧ ∀ ors2 : Oracles, ors2.dbOk →
        (check_teacher_availability ors2
            ⟨(check_teacher_availability ors st).store,
              (check_teacher_availability ors st).consecutive_errors⟩).trace =
          (check_teacher_availability ors st).store.flatMap (itemTrace ors2) := by
  constructor
  · intro e rows tr lg he
    unfold check_teacher_availability
    rw [he]
  · intro ors2 h2
    exact check_trace_good ors2 _ h2

/-- Witness for C7: the subscription query raises; the run swallows it,
logs it, leaves the state untouched, and the next run probes the row. -/
theorem claim7_witness :
    check_teacher_availability orsQueryBoom ⟨[demoUser], 2⟩ =
      ⟨[demoUser], 2, [], ["⚠ 通知チェックでエラー発生: " ++ "down"]⟩
    ∧ (check_teacher_availability (orsGood 1)
          ⟨(check_teacher_availability orsQueryBoom ⟨[demoUser], 2⟩).store,
            (check_teacher_availability orsQueryBoom
              ⟨[demoUser], 2⟩).consecutive_errors⟩).trace =
        (check_teacher_availability orsQueryBoom
          ⟨[demoUser], 2⟩).store.flatMap (itemTrace (orsGood 1)) :=
  ⟨(claim7_run_boundary_catch orsQueryBoom ⟨[demoUser], 2⟩).1
      "down" [demoUser] [] [] rfl,
   (claim7_run_boundary_catch orsQueryBoom ⟨[demoUser], 2⟩).2
      (orsGood 1) ⟨rfl, fun _ => rfl⟩⟩

/-- Claim C8: the prober returns `none` on a request exception, on any
non-200 status and on a redirect to the generic landing page — never a
zero count in those cases — and otherwise the count of 予約可 text nodes,
a value of type `Nat` and hence non-negative. -/
theorem claim8_prober_contract (fetch : String → FetchResult) (tid : String) :
    (fetch (teacherURL tid) = FetchResult.exn →
      get_available_slots fetch tid = none)
    ∧ (∀ (s : Nat) (url : String) (body : List String),
        fetch (teacherURL tid) = FetchResult.resp s url body →
        s ≠ 200 ∨ url = landingURL →
        get_available_slots fetch tid = none)
    ∧ (∀ (s : Nat) (url : String) (body : List String),
        fetch (teacherURL tid) = FetchResult.resp s url body →
        s = 200 → url ≠ landingURL →
        get_available_slots fetch tid =
          some (body.filter (fun x => x = "予約可")).length) := by
  refine ⟨fun he => ?_, fun s url body hr hbad => ?_, fun s url body hr h200 hurl => ?_⟩
  · unfold get_available_slots
    rw [he]
  · unfold get_available_slots
    rw [hr]
    simp only [if_pos hbad]
  · unfold get_available_slots
    rw [hr]
    have : ¬(s ≠ 200 ∨ url = landingURL) := by
      push_neg
      exact ⟨h200, hurl⟩
    simp only [if_neg this]

/-- Witness for C8: a redirect of status 200 to the landing page is a
failure marker, not a zero count; a genuine empty page is `some 0`. -/
theorem claim8_witness :
    get_available_slots (fun _ => FetchResult.resp 200 landingURL ["予約可"])
        "12345" = none
    ∧ get_available_slots (fun _ => FetchResult.resp 404 "teacherpage" [])
        "12345" = none
    ∧ get_available_slots (fun _ => FetchResult.exn) "12345" = none
    ∧ get_available_slots (fun _ => FetchResult.resp 200 "teacherpage" ["予約不可"])
        "12345" = some 0 :=
  ⟨(claim8_prober_contract
      (fun _ => FetchResult.resp 200 landingURL ["予約可"]) "12345").2.1
      200 landingURL ["予約可"] rfl (Or.inr rfl),
   (claim8_prober_contract
      (fun _ => FetchResult.resp 404 "teacherpage" []) "12345").2.1
      404 "teacherpage" [] rfl (Or.inl (by decide)),
   (claim8_prober_contract (fun _ => FetchResult.exn) "12345").1 rfl,
   (claim8_prober_contract
      (fun _ => FetchResult.resp 200 "teacherpage" ["予約不可"]) "12345").2.2
      200 "teacherpage" ["予約不可"] rfl rfl (by decide)⟩

/-- Claim C9: in a run with a reliable database the trace is exactly the
concatenation, in store order, of per-subscription blocks, and a block
with a successful probe is the probe, then the notification decision,
then immediately that subscription's own commit — so every commit lands
before the next subscription's probe and none is deferred to the end. -/
theorem claim9_commit_per_item (ors : Oracles) (st : GlobalState)
    (h : ors.dbOk) :
    (check_teacher_availability ors st).trace =
        st.store.flatMap (itemTrace ors)
    ∧ ∀ (u : UserData) (c : Nat),
        get_available_slots ors.fetch u.teacher_id = some c →
        itemTrace ors u =
          Event.probe u.teacher_id ::
            (if u.last_available_count < c then
              [Event.notify u.pushbullet_token
                (u.teacher_name ++ " レッスン開講通知") (teacherURL u.teacher_id)]
            else []) ++ [Event.commit u.teacher_id c] := by
  refine ⟨check_trace_good ors st h, fun u c hc => ?_⟩
  by_cases hlt : u.last_available_count < c
  · simp [itemTrace, hc, hlt, send_push_notification_fst]
  · simp [itemTrace, hc, hlt]

/-- Witness for C9: two subscriptions, both probes succeed at count 1;
each commit sits inside its own block, before the next probe. -/
theorem claim9_witness :
    (check_teacher_availability (orsGood 1)
        ⟨[demoUser, { demoUser with last_available_count := 7 }], 0⟩).trace =
      [demoUser, { demoUser with last_available_count := 7 }].flatMap
        (itemTrace (orsGood 1))
    ∧ itemTrace (orsGood 1) demoUser =
        Event.probe demoUser.teacher_id ::
          (if demoUser.last_available_count < 1 then
            [Event.notify demoUser.pushbullet_token
              (demoUser.teacher_name ++ " レッスン開講通知")
              (teacherURL demoUser.teacher_id)]
          else []) ++ [Event.commit demoUser.teacher_id 1] :=
  ⟨(claim9_commit_per_item (orsGood 1)
      ⟨[demoUser, { demoUser with last_available_count := 7 }], 0⟩
      ⟨rfl, fun _ => rfl⟩).1,
   (claim9_commit_per_item (orsGood 1)
      ⟨[demoUser, { demoUser with last_available_count := 7 }], 0⟩
      ⟨rfl, fun _ => rfl⟩).2 demoUser 1 rfl⟩

/-- Claim C10: a create request from an owner who already holds 10
subscriptions is rejected with the store unchanged, and consequently no
POST to `index` can push any owner past 10 subscriptions. -/
theorem claim10_owner_cap (fetchName : String → NameFetchResult)
    (store : List UserData) (uid : String)
    (teacher_id pushbullet_token : Option String) :
    (10 ≤ countFor uid store →
      indexPost fetchName store uid teacher_id pushbullet_token =
        (store, IndexPostResult.capExceeded))
    ∧ ∀ owner : String, countFor owner store ≤ 10 →
        countFor owner
          (indexPost fetchName store uid teacher_id pushbullet_token).1 ≤ 10 := by
  constructor
  · intro h10
    unfold indexPost
    rw [if_pos h10]
  · intro owner howner
    rcases indexPost_store_shape fetchName store uid teacher_id
        pushbullet_token with hsame | ⟨hlt, t, n, p, happ⟩
    · rw [hsame]; exact howner
    · rw [happ, countFor_append_single]
      by_cases ho : uid = owner
      · subst ho
        simp only [if_pos rfl, if_true]
        omega
      · simp only [if_neg ho]
        omega

/-- Witness for C10: an owner with exactly 10 rows is rejected, and every
owner's count stays at most 10 afterwards. -/
theorem claim10_witness :
    (indexPost (fun _ => NameFetchResult.resp "teacherpage" (some "Bob"))
        (List.replicate 10 demoUser) "owner1" (some "67890") (some "tok2") =
      (List.replicate 10 demoUser, IndexPostResult.capExceeded))
    ∧ countFor "owner1"
        (indexPost (fun _ => NameFetchResult.resp "teacherpage" (some "Bob"))
          (List.replicate 10 demoUser) "owner1" (some "67890")
          (some "tok2")).1 ≤ 10 :=
  ⟨(claim10_owner_cap (fun _ => NameFetchResult.resp "teacherpage" (some "Bob"))
      (List.replicate 10 demoUser) "owner1" (some "67890") (some "tok2")).1
      (by decide),
   (claim10_owner_cap (fun _ => NameFetchResult.resp "teacherpage" (some "Bob"))
      (List.replicate 10 demoUser) "owner1" (some "67890") (some "tok2")).2
      "owner1" (by decide)⟩

end DmmNotifier
